import Mathlib

/-! Formal model of the Telegram API-management bot (src/index.js).

The development shallowly embeds the bot's core: the credential store
(the Mongo `Client` collection keyed by the unique `telegramId`), the
API proxy `makeApiRequest`, the Telegraf callback-query dispatch
(`bot.action` triggers, matched in registration order with unanchored
regexes, exactly as `Composer.match` does), the command handlers
(`settoken`, `seturl`, `deleteaccount`) and the list/detail/confirm
action handlers.  Host behaviour (the HTTP transport, the Mongo update
outcome, locale number formatting) enters as explicit parameters. -/

namespace Leadie

/-- Credential record: one document of the Mongo `clientSchema`
(`telegramId` unique, `apiToken`, `baseUrl`, `createdAt`, `lastUsed`). -/
structure Client where
  telegramId : String
  apiToken : String
  baseUrl : String
  createdAt : Nat
  lastUsed : Nat
deriving DecidableEq

/-- The `Client` collection.  Since `telegramId` carries a unique index,
the collection is a map from ids to at most one document. -/
def Store : Type := String → Option Client

/-- The lookup `Client.findOne({ telegramId })` (helper `getClient`). -/
def getClient (store : Store) (id : String) : Option Client := store id

/-- The upsert `Client.findOneAndUpdate({telegramId}, {telegramId,
apiToken, baseUrl, lastUsed}, {upsert : true})` performed by `settoken`:
replaces the named fields of an existing document (keeping `createdAt`)
or inserts a fresh document (whose `createdAt` defaults to now). -/
def upsertClient (store : Store) (id token base : String) (now : Nat) : Store :=
  fun k =>
    if k = id then
      some { telegramId := id, apiToken := token, baseUrl := base,
             createdAt := (match store id with | some c => c.createdAt | none => now),
             lastUsed := now }
    else store k

/-- The update `Client.updateOne({telegramId}, {baseUrl})` performed by
`seturl`: rewrites `baseUrl` of the matching document, if any. -/
def updateBaseUrl (store : Store) (id url : String) : Store :=
  fun k =>
    if k = id then (store k).map (fun c => { c with baseUrl := url }) else store k

/-- The delete `Client.deleteOne({telegramId})` performed by
`confirm_delete_account`. -/
def deleteOneClient (store : Store) (id : String) : Store :=
  fun k => if k = id then none else store k

/-- An outbound axios request config as the bot builds it: method, url,
bearer token, content type, optional body, and the axios `timeout`
option (which none of the bot's configs sets; axios then waits without
bound). -/
structure Request where
  method : String
  url : String
  bearer : Option String
  contentType : Option String
  body : Option String
  timeout : Option Nat
deriving DecidableEq

/-- An error payload as thrown by `makeApiRequest` and read by the
handlers (`error.error`): a JSON object whose `error` field may be
absent. -/
structure ApiErr where
  error : Option String
deriving DecidableEq

/-- Generic payload `{ error : 'API request failed' }` thrown when the
failure carries no backend response body. -/
def genericApiErr : ApiErr := { error := some "API request failed" }

instance {ε α : Type} [DecidableEq ε] [DecidableEq α] : DecidableEq (Except ε α) := fun x y =>
  match x, y with
  | .ok a, .ok b => if h : a = b then .isTrue (by rw [h]) else .isFalse (by simp [h])
  | .error a, .error b => if h : a = b then .isTrue (by rw [h]) else .isFalse (by simp [h])
  | .ok _, .error _ => .isFalse (by simp)
  | .error _, .ok _ => .isFalse (by simp)

/-- Outcome of one HTTP exchange, as seen from the axios call site:
either the parsed success body, or a failure optionally carrying the
backend response body (`error.response?.data`). -/
inductive HttpResult (α : Type) where
  | success (data : α)
  | failure (respData : Option ApiErr)

/-- The request config `makeApiRequest` builds:
`{ method, url : baseUrl + endpoint, headers : { Authorization : Bearer
token, Content-Type : application/json }, data? }`.  No `timeout` is
set. -/
def buildRequest (client : Client) (endpoint method : String) (body : Option String) :
    Request :=
  { method := method
    url := client.baseUrl ++ endpoint
    bearer := some client.apiToken
    contentType := some "application/json"
    body := body
    timeout := none }

/-- The proxy `makeApiRequest(client, endpoint, method, data)`.
`client` is `Option Client` because the action handlers pass the result
of `getClient` through unchecked: on `none`, reading `client.baseUrl`
raises a TypeError inside the `try` before axios runs, and the `catch`
rethrows the generic payload (no HTTP request is issued).  On an axios
failure the `catch` rethrows `error.response?.data` if that body is
present, else the generic payload.  On axios success the code awaits
`Client.updateOne(..., { lastUsed })` still inside the `try`, so a
failing update (`touchOk = false`) is also rethrown as the generic
payload.  Alongside the result we return the list of HTTP requests
actually issued. -/
def makeApiRequest {α : Type} (clientOpt : Option Client) (endpoint : String)
    (method : String) (body : Option String)
    (http : Request → HttpResult α) (touchOk : Bool) :
    Except ApiErr α × List Request :=
  match clientOpt with
  | none => (.error genericApiErr, [])
  | some client =>
    let cfg := buildRequest client endpoint method body
    match http cfg with
    | .failure respData => (.error (respData.getD genericApiErr), [cfg])
    | .success d => if touchOk then (.ok d, [cfg]) else (.error genericApiErr, [cfg])

/-- JavaScript `a || b` on an optional string: the default replaces both
a missing and an empty (falsy) value. -/
def jsOr (s : Option String) (d : String) : String :=
  match s with
  | some v => if v = "" then d else v
  | none => d

/-- JavaScript template interpolation of a possibly-undefined string:
an absent value prints as the text `undefined`. -/
def jsTemplate (s : Option String) : String := s.getD "undefined"

/-! Callback-query dispatch.  Telegraf's `Composer.match` normalises a
string trigger into a strict-equality test and a regex trigger into
`trigger.exec(value)` - an UNANCHORED search - and runs the handlers in
registration order, stopping at the first trigger that matches. -/

/-- Greedy run of leading decimal digits, the capture of `(\d+)`. -/
def takeDigits : List Char → List Char
  | [] => []
  | c :: cs => if c.isDigit then c :: takeDigits cs else []

/-- Unanchored `exec` of the regex `pre(\d+)`: scan left to right for an
occurrence of the literal `pre` followed by at least one digit; capture
the maximal digit run.  A position where `pre` matches but no digit
follows fails, and the scan resumes at the next position. -/
def execPrefixDigits (pat : List Char) : List Char → Option String
  | [] => none
  | c :: cs =>
    if pat.isPrefixOf (c :: cs) then
      match takeDigits (List.drop pat.length (c :: cs)) with
      | [] => execPrefixDigits pat cs
      | ds => some (String.mk ds)
    else execPrefixDigits pat cs

/-- Unanchored `exec` of the regex `pre(alt1|alt2|...)`: scan left to
right; at each position try the alternatives in order; capture the
alternative. -/
def execAlt (pat : List Char) (alts : List (List Char)) : List Char → Option String
  | [] => none
  | c :: cs =>
    match alts.find? (fun a => (pat ++ a).isPrefixOf (c :: cs)) with
    | some a => some (String.mk a)
    | none => execAlt pat alts cs

/-- A registered `bot.action` trigger: an exact string, or one of the
two regex shapes the bot uses. -/
inductive Trigger where
  | exact (s : String)
  | patDigits (pre : String)
  | patAlt (pre : String) (alts : List String)

/-- Run one trigger against the callback data.  `some m` means the
trigger fired; `m` is capture group 1 (`none` for string triggers). -/
def runTrigger (t : Trigger) (s : String) : Option (Option String) :=
  match t with
  | .exact e => if e = s then some none else none
  | .patDigits pre => (execPrefixDigits pre.data s.data).map some
  | .patAlt pre alts => (execAlt pre.data (alts.map String.data) s.data).map some

/-- The callback-query handlers of src/index.js, named after the screen
they serve. -/
inductive HandlerId where
  | jobsList | jobDetails | runJob | deleteJob | confirmDeleteJob
  | targetsList | leadsList | leadDetails
  | confirmDeleteAccount | cancelDelete
  | backMenu | backJobs | backTargets | backLeads
deriving DecidableEq

/-- The `bot.action` registrations in source order (lines 188, 230, 268,
289, 303, 340, 386, 420, 578, 594, 600, 606, 616, 626). -/
def actionRegistry : List (Trigger × HandlerId) :=
  [ (.exact "jobs_list", .jobsList),
    (.patDigits "job_", .jobDetails),
    (.patDigits "run_job_", .runJob),
    (.patDigits "delete_job_", .deleteJob),
    (.patDigits "confirm_delete_job_", .confirmDeleteJob),
    (.exact "targets_list", .targetsList),
    (.patAlt "leads_" ["all", "ready"], .leadsList),
    (.patDigits "lead_", .leadDetails),
    (.exact "confirm_delete_account", .confirmDeleteAccount),
    (.exact "cancel_delete", .cancelDelete),
    (.exact "back_menu", .backMenu),
    (.exact "back_jobs", .backJobs),
    (.exact "back_targets", .backTargets),
    (.exact "back_leads", .backLeads) ]

/-- First trigger in the table that fires wins; its handler receives the
capture.  An update matching no trigger falls through every middleware
and is dropped (`bot.catch` only wraps errors thrown inside handlers, so
no reply of any kind is produced for it). -/
def dispatchList : List (Trigger × HandlerId) → String → Option (HandlerId × Option String)
  | [], _ => none
  | (t, h) :: rest, s =>
    match runTrigger t s with
    | some m => some (h, m)
    | none => dispatchList rest s

/-- Dispatch of one callback query against the full registry. -/
def dispatch (s : String) : Option (HandlerId × Option String) :=
  dispatchList actionRegistry s

/-! Response envelopes and rendered screens. -/

/-- The pagination object of a list envelope: `{ page, pages, total }`. -/
structure Pagination where
  page : Nat
  pages : Nat
  total : Nat
deriving DecidableEq

/-- A list envelope `{ data : [...], pagination }`. -/
structure Paginated (α : Type) where
  data : List α
  pagination : Pagination

/-- The fields of a job row the handlers read. -/
structure Job where
  id : Nat
  name : String
  status : String
deriving DecidableEq

/-- The fields of a target row the handlers read. -/
structure Target where
  id : Nat
  identifier : String
deriving DecidableEq

/-- The fields of a lead row the list handler reads. -/
structure Lead where
  id : Nat
  username : String
  followers : Nat
deriving DecidableEq

/-- The fields of a content-analysis row the handler reads; the counts
and rate may be absent in the backend row. -/
structure Content where
  platform : String
  username : String
  likes : Option Nat
  comments : Option Nat
  views : Option Nat
  engagement : Option String
deriving DecidableEq

/-- The status-to-emoji map with its `|| the-question-mark` fallback. -/
def statusEmoji (status : String) : String :=
  if status = "queued" then "⏳"
  else if status = "running" then "🏃"
  else if status = "finished" then "✅"
  else if status = "failed" then "❌"
  else "❓"

/-- One inline keyboard button: label plus callback action identifier. -/
structure Button where
  label : String
  action : String
deriving DecidableEq

/-- A rendered message: text body plus inline keyboard rows. -/
structure Screen where
  text : String
  buttons : List (List Button)
deriving DecidableEq

/-- One user-visible output of a handler, in emission order:
`answerCbQuery` without alert (toast), `answerCbQuery` with
`show_alert` (alert), `editMessageText` (edit), a plain `ctx.reply`
(send), and a `ctx.reply` carrying an inline keyboard (sendScreen). -/
inductive UserMsg where
  | toast (text : String)
  | alert (text : String)
  | edit (screen : Screen)
  | send (text : String)
  | sendScreen (screen : Screen)
deriving DecidableEq

/-! Typed-command handlers. -/

/-- The configured default base url
`process.env.API_BASE_URL || 'http://localhost:5000/api/v1'`. -/
def defaultBaseUrl (envBase : Option String) : String :=
  envBase.getD "http://localhost:5000/api/v1"

/-- The `settoken` verification config: a GET on
`(API_BASE_URL || default) + '/stats'` carrying only the candidate
bearer token.  It is built from the environment and the submitted token
alone - the stored credential (and any `seturl` value) plays no part -
and sets no `timeout`. -/
def verifyRequest (token : String) (envBase : Option String) : Request :=
  { method := "GET"
    url := defaultBaseUrl envBase ++ "/stats"
    bearer := some token
    contentType := none
    body := none
    timeout := none }

/-- The `bot.command('settoken')` handler.  `verify` is the host
outcome of `await axios(testConfig)` (true = 2xx).  Returns the new
store, the emitted messages, and the verification requests issued. -/
def settokenCommand (store : Store) (id : String) (args : List String)
    (envBase : Option String) (verify : Request → Bool) (now : Nat) :
    Store × List UserMsg × List Request :=
  match args with
  | [] => (store, [.send "❌ Please provide your API token:\n/settoken YOUR_TOKEN"], [])
  | token :: _ =>
    let cfg := verifyRequest token envBase
    if verify cfg then
      (upsertClient store id token (defaultBaseUrl envBase) now,
       [.send "👁️ Verifying token...",
        .edit { text := "✅ Token verified and saved successfully!\n\nUse /start to access the menu.",
                buttons := [] }],
       [cfg])
    else
      (store,
       [.send "👁️ Verifying token...",
        .edit { text := "❌ Invalid token or API is unreachable.\n\nPlease check your token and try again.",
                buttons := [] }],
       [cfg])

/-- The `bot.command('seturl')` handler: usage message on missing
argument, onboarding prompt when no credential exists, else a
`baseUrl` update. -/
def seturlCommand (store : Store) (id : String) (args : List String) :
    Store × List UserMsg :=
  match args with
  | [] => (store, [.send "❌ Please provide the base URL:\n/seturl https://your-domain.com/api/v1"])
  | url :: _ =>
    match getClient store id with
    | none => (store, [.send "❌ Please set your API token first using /settoken"])
    | some _ => (updateBaseUrl store id url, [.send "✅ Base URL updated successfully!"])

/-! Menu (hears) handlers.  Each first checks `getClient` and prompts
for onboarding when absent. -/

/-- The uniform onboarding prompt of the menu handlers. -/
def notOnboardedMsg : String := "❌ Please set your token first: /settoken"

/-- The job-management menu screen rendered by `bot.hears('📊 Jobs')`. -/
def jobsMenuScreen : Screen :=
  { text := "📊 Job Management\n\nChoose an action:"
    buttons := [ [{ label := "📋 List All Jobs", action := "jobs_list" }],
                 [{ label := "➕ Create New Job", action := "jobs_create" }],
                 [{ label := "🔙 Back to Menu", action := "back_menu" }] ] }

/-- The `bot.hears('📊 Jobs')` handler. -/
def jobsHears (clientOpt : Option Client) : List UserMsg :=
  match clientOpt with
  | none => [.send notOnboardedMsg]
  | some _ => [.sendScreen jobsMenuScreen]

/-- The target-management menu screen rendered by
`bot.hears('🎯 Targets')`. -/
def targetsMenuScreen : Screen :=
  { text := "🎯 Target Management\n\nChoose an action:"
    buttons := [ [{ label := "📋 List Targets", action := "targets_list" }],
                 [{ label := "➕ Create Target", action := "targets_create" }],
                 [{ label := "🔙 Back", action := "back_menu" }] ] }

/-- The `bot.hears('🎯 Targets')` handler. -/
def targetsHears (clientOpt : Option Client) : List UserMsg :=
  match clientOpt with
  | none => [.send notOnboardedMsg]
  | some _ => [.sendScreen targetsMenuScreen]

/-! List action handlers.  Each sends a loading toast, runs the proxy
call, and either renders the error text, the fixed empty-set screen, or
the populated list.  None of them branches on a missing credential. -/

/-- The page marker `(Page current/total)` interpolated into every list
header. -/
def pageMarker (page pages : Nat) : String :=
  "(Page " ++ toString page ++ "/" ++ toString pages ++ ")"

/-- The total marker `Total: n` interpolated into the jobs and leads
headers. -/
def totalMarker (total : Nat) : String :=
  "Total: " ++ toString total

/-- Header text of the populated jobs list. -/
def jobsListText (p : Pagination) : String :=
  "📊 Jobs List " ++ pageMarker p.page p.pages ++ "\n📦 " ++ totalMarker p.total ++
    "\n\nSelect a job to view details:"

/-- Keyboard of the populated jobs list: one row per job (status emoji
plus name, action `job_<id>`) and a final back row. -/
def jobsButtons (items : List Job) : List (List Button) :=
  items.map (fun job =>
    [{ label := statusEmoji job.status ++ " " ++ job.name,
       action := "job_" ++ toString job.id }]) ++
  [[{ label := "🔙 Back", action := "back_jobs" }]]

/-- The `bot.action('jobs_list')` handler. -/
def jobsListAction (clientOpt : Option Client)
    (http : Request → HttpResult (Paginated Job)) (touchOk : Bool) :
    List UserMsg × List Request :=
  let loading := UserMsg.toast "👁️ Loading jobs..."
  match makeApiRequest clientOpt "/jobs?page=1&per_page=10" "GET" none http touchOk with
  | (.error e, reqs) =>
    ([loading, .edit { text := "❌ Error: " ++ jsOr e.error "Failed to fetch jobs", buttons := [] }], reqs)
  | (.ok d, reqs) =>
    if d.data.length = 0 then
      ([loading, .edit { text := "📭 No jobs found.\n\nCreate your first job!", buttons := [] }], reqs)
    else
      ([loading, .edit { text := jobsListText d.pagination, buttons := jobsButtons d.data }], reqs)

/-- Header text of the populated targets list (no total is printed). -/
def targetsListText (p : Pagination) : String :=
  "🎯 Targets " ++ pageMarker p.page p.pages ++ "\n\nSelect a target:"

/-- Keyboard of the populated targets list. -/
def targetsButtons (items : List Target) : List (List Button) :=
  items.map (fun t =>
    [{ label := "🎯 " ++ t.identifier, action := "target_" ++ toString t.id }]) ++
  [[{ label := "🔙 Back", action := "back_targets" }]]

/-- The `bot.action('targets_list')` handler. -/
def targetsListAction (clientOpt : Option Client)
    (http : Request → HttpResult (Paginated Target)) (touchOk : Bool) :
    List UserMsg × List Request :=
  let loading := UserMsg.toast "👁️ Loading targets..."
  match makeApiRequest clientOpt "/targets?page=1&per_page=10" "GET" none http touchOk with
  | (.error e, reqs) =>
    ([loading, .edit { text := "❌ Error: " ++ jsOr e.error "Failed to fetch targets", buttons := [] }], reqs)
  | (.ok d, reqs) =>
    if d.data.length = 0 then
      ([loading, .edit { text := "📭 No targets found.", buttons := [] }], reqs)
    else
      ([loading, .edit { text := targetsListText d.pagination, buttons := targetsButtons d.data }], reqs)

/-- Header text of the populated leads list. -/
def leadsListText (p : Pagination) : String :=
  "👥 Leads " ++ pageMarker p.page p.pages ++ "\n" ++ totalMarker p.total ++
    "\n\nSelect a lead:"

/-- Keyboard of the populated leads list. -/
def leadsButtons (items : List Lead) : List (List Button) :=
  items.map (fun lead =>
    [{ label := "👤 " ++ lead.username ++ " (" ++ toString lead.followers ++ " followers)",
       action := "lead_" ++ toString lead.id }]) ++
  [[{ label := "🔙 Back", action := "back_leads" }]]

/-- The `bot.action(/leads_(all|ready)/)` handler; `leadsType` is the
capture (`all` or `ready`), selecting the query string. -/
def leadsListAction (clientOpt : Option Client) (leadsType : String)
    (http : Request → HttpResult (Paginated Lead)) (touchOk : Bool) :
    List UserMsg × List Request :=
  let query := if leadsType = "ready" then "?outreach_ready=true&page=1" else "?page=1"
  let loading := UserMsg.toast "👁️ Loading leads..."
  match makeApiRequest clientOpt ("/leads" ++ query) "GET" none http touchOk with
  | (.error e, reqs) =>
    ([loading, .edit { text := "❌ Error: " ++ jsOr e.error "Failed to fetch leads", buttons := [] }], reqs)
  | (.ok d, reqs) =>
    if d.data.length = 0 then
      ([loading, .edit { text := "📭 No leads found.", buttons := [] }], reqs)
    else
      ([loading, .edit { text := leadsListText d.pagination, buttons := leadsButtons d.data }], reqs)

/-- One numbered block of the content-analysis message.  `fmt` is the
host's `toLocaleString` on numbers; an absent count prints as `0`
(`x?.toLocaleString() || 0`), an absent or empty rate as `N/A`. -/
def contentLine (fmt : Nat → String) (ic : Nat × Content) : String :=
  toString (ic.1 + 1) ++ ". 📱 " ++ ic.2.platform ++ " - @" ++ ic.2.username ++ "\n" ++
  "   ❤️ Likes: " ++ (match ic.2.likes with | some n => fmt n | none => "0") ++ "\n" ++
  "   💬 Comments: " ++ (match ic.2.comments with | some n => toString n | none => "0") ++ "\n" ++
  "   👁️ Views: " ++ (match ic.2.views with | some n => fmt n | none => "0") ++ "\n" ++
  "   📊 Engagement: " ++ jsOr ic.2.engagement "N/A" ++ "\n\n"

/-- The content-analysis message: a header whose page number is the
literal requested page 1, followed by the numbered blocks. -/
def contentAnalysisText (fmt : Nat → String) (p : Pagination) (items : List Content) : String :=
  "📈 Content Analysis " ++ ("(Page 1/" ++ toString p.pages ++ ")") ++ "\n\n" ++
    String.join (items.enum.map (contentLine fmt))

/-- The `bot.hears('📈 Content Analysis')` handler (it checks the
credential, sends a loading reply, then edits it with the result). -/
def contentAnalysisHears (clientOpt : Option Client) (fmt : Nat → String)
    (http : Request → HttpResult (Paginated Content)) (touchOk : Bool) :
    List UserMsg × List Request :=
  match clientOpt with
  | none => ([.send notOnboardedMsg], [])
  | some client =>
    let loading := UserMsg.send "👁️ Loading content analysis..."
    match makeApiRequest (some client) "/content-analysis?page=1&per_page=5" "GET" none http touchOk with
    | (.error e, reqs) =>
      ([loading, .edit { text := "❌ Error: " ++ jsOr e.error "Failed to fetch content analysis", buttons := [] }], reqs)
    | (.ok d, reqs) =>
      if d.data.length = 0 then
        ([loading, .edit { text := "📭 No content analysis data found.", buttons := [] }], reqs)
      else
        ([loading, .edit { text := contentAnalysisText fmt d.pagination d.data, buttons := [] }], reqs)

/-! Destructive-action handlers. -/

/-- The `bot.action(/delete_job_(\d+)/)` handler: renders the
confirmation screen whose confirm button carries
`confirm_delete_job_<id>` and whose cancel button carries `jobs_list`.
No backend call is made at this step. -/
def deleteJobAction (jobId : String) : List UserMsg :=
  [.edit { text := "⚠️ Are you sure you want to delete this job?\n\nThis action cannot be undone."
           buttons := [[{ label := "✅ Yes, Delete", action := "confirm_delete_job_" ++ jobId },
                        { label := "❌ Cancel", action := "jobs_list" }]] }]

/-- The `bot.action(/confirm_delete_job_(\d+)/)` handler: issues the
DELETE through the proxy; on success shows the alert, edits in the
terminal success text and re-sends the menu prompt; on any thrown error
shows the alert `❌ <error.error>`. -/
def confirmDeleteJobAction (clientOpt : Option Client) (jobId : String)
    (http : Request → HttpResult Unit) (touchOk : Bool) :
    List UserMsg × List Request :=
  let loading := UserMsg.toast "👁️ Deleting job..."
  match makeApiRequest clientOpt ("/jobs/" ++ jobId) "DELETE" none http touchOk with
  | (.ok _, reqs) =>
    ([loading, .alert "✅ Job deleted!",
      .edit { text := "✅ Job deleted successfully!", buttons := [] },
      .send "Choose an option:"], reqs)
  | (.error e, reqs) =>
    ([loading, .alert ("❌ " ++ jsTemplate e.error)], reqs)

/-- The `bot.action('confirm_delete_account')` handler: deletes the
credential document and renders the terminal success text.  It issues
no backend API request (the function has no http parameter). -/
def confirmDeleteAccountAction (store : Store) (id : String) : Store × List UserMsg :=
  (deleteOneClient store id,
   [.toast "👁️ Deleting account...",
    .edit { text := "✅ Account deleted successfully!\n\nUse /settoken to create a new account.",
            buttons := [] }])

/-- The `bot.action('cancel_delete')` handler: acknowledgement only,
no store change and no backend call. -/
def cancelDeleteAction : List UserMsg :=
  [.toast "Cancelled", .edit { text := "❌ Account deletion cancelled.", buttons := [] }]

/-! Substring test used to state what a rendered text shows. -/

/-- Boolean test that `needle` occurs contiguously inside the
haystack. -/
def hasInfix (needle : List Char) : List Char → Bool
  | [] => needle.isEmpty
  | c :: t => needle.isPrefixOf (c :: t) || hasInfix needle t

theorem isPrefixOf_append_self (l t : List Char) : l.isPrefixOf (l ++ t) = true := by
  induction l with
  | nil => simp [List.isPrefixOf]
  | cons a as ih => simp [List.isPrefixOf, ih]

theorem hasInfix_of_isPrefixOf {n h : List Char} (hp : n.isPrefixOf h = true) :
    hasInfix n h = true := by
  cases h with
  | nil =>
    cases n with
    | nil => simp [hasInfix]
    | cons a as => simp [List.isPrefixOf] at hp
  | cons c t => simp [hasInfix, hp]

theorem hasInfix_cons (c : Char) {n t : List Char} (h : hasInfix n t = true) :
    hasInfix n (c :: t) = true := by
  simp [hasInfix, h]

theorem hasInfix_append (a n c : List Char) : hasInfix n (a ++ (n ++ c)) = true := by
  induction a with
  | nil => exact hasInfix_of_isPrefixOf (isPrefixOf_append_self n c)
  | cons x xs ih => exact hasInfix_cons x ih

theorem hasInfix_of_eq_append {n l : List Char} (a c : List Char)
    (h : l = a ++ (n ++ c)) : hasInfix n l = true := by
  rw [h]; exact hasInfix_append a n c

theorem strDataAppend (s t : String) : (s ++ t).data = s.data ++ t.data := rfl

/-! Concrete values for evaluations. -/

/-- A stored credential used in concrete evaluations. -/
def exClient : Client :=
  { telegramId := "42", apiToken := "tok", baseUrl := "http://localhost:5000/api/v1",
    createdAt := 0, lastUsed := 0 }

/-- A store holding exactly the credential of identity 42. -/
def exStore : Store :=
  fun k => if k = "42" then some exClient else none

/-- A one-job list envelope. -/
def exJobsResp : Paginated Job :=
  { data := [{ id := 5, name := "Job A", status := "queued" }]
    pagination := { page := 1, pages := 1, total := 1 } }

/-- A one-target list envelope whose total (7) appears nowhere else, so
that its absence from the rendered text is meaningful. -/
def exTargetsResp : Paginated Target :=
  { data := [{ id := 1, identifier := "acme" }]
    pagination := { page := 1, pages := 1, total := 7 } }

/-- A one-lead list envelope. -/
def exLeadsResp : Paginated Lead :=
  { data := [{ id := 3, username := "lee", followers := 10 }]
    pagination := { page := 1, pages := 1, total := 1 } }

/-- A one-row content-analysis envelope. -/
def exContentResp : Paginated Content :=
  { data := [{ platform := "x", username := "lee", likes := some 2, comments := some 1,
               views := some 9, engagement := some "3%" }]
    pagination := { page := 1, pages := 2, total := 6 } }

/-! Claim theorems. -/

/-- C1 (code bug): dispatch does NOT send every screen-produced action
identifier to the handler of the verb that produced it.  Telegraf
matches the UNANCHORED regex triggers in registration order, and
`/job_(\d+)/` is registered before `/run_job_(\d+)/`,
`/delete_job_(\d+)/` and `/confirm_delete_job_(\d+)/`; since `job_<id>`
occurs inside each of those identifiers, all three are routed to the
job-details handler (with the correct numeric id), so the dedicated
run/delete/confirm-delete handlers are unreachable from the rendered
buttons and parsing does not recover the verb that produced the
identifier. -/
theorem c1_dispatch_misroutes :
    dispatch "job_5" = some (.jobDetails, some "5") ∧
    dispatch "jobs_list" = some (.jobsList, none) ∧
    dispatch "back_menu" = some (.backMenu, none) ∧
    dispatch "run_job_5" = some (.jobDetails, some "5") ∧
    dispatch "run_job_5" ≠ some (.runJob, some "5") ∧
    dispatch "delete_job_7" = some (.jobDetails, some "7") ∧
    dispatch "delete_job_7" ≠ some (.deleteJob, some "7") ∧
    dispatch "confirm_delete_job_7" = some (.jobDetails, some "7") ∧
    dispatch "confirm_delete_job_7" ≠ some (.confirmDeleteJob, some "7") := by
  decide

/-- C2 (code bug): when the confirm-delete handler runs after the job is
already gone, the backend DELETE fails (404 with body
`{error : 'Job not found'}`), `makeApiRequest` rethrows that body, and
the handler's catch shows the user-facing alert `❌ Job not found` - it
does not render the already-satisfied success the claim requires, and
the terminal success edit is absent from the output. -/
theorem c2_second_delete_errors :
    confirmDeleteJobAction (some exClient) "7"
        (fun _ => .failure (some { error := some "Job not found" })) true =
      ([.toast "👁️ Deleting job...", .alert "❌ Job not found"],
       [buildRequest exClient "/jobs/7" "DELETE" none]) ∧
    UserMsg.edit { text := "✅ Job deleted successfully!", buttons := [] } ∉
      (confirmDeleteJobAction (some exClient) "7"
        (fun _ => .failure (some { error := some "Job not found" })) true).1 := by
  decide

/-- C3 counterexample: a successful HTTP exchange whose `lastUsed`
update fails is returned as the generic error, not as the success
data - the touch is awaited inside the `try`, so its failure is not
swallowed. -/
theorem c3_touch_failure_breaks_success :
    makeApiRequest (some exClient) "/stats" "GET" none
        (fun _ => HttpResult.success (42 : Nat)) false =
      (.error genericApiErr, [buildRequest exClient "/stats" "GET" none]) ∧
    (makeApiRequest (some exClient) "/stats" "GET" none
        (fun _ => HttpResult.success (42 : Nat)) false).1 ≠ .ok 42 := by
  decide

/-- C3 amended: on a successful backend exchange the proxy returns the
success data when the `lastUsed` update also succeeds, and throws the
generic request-failed error when the update fails; exactly one HTTP
request is issued either way. -/
theorem c3_touch_result (α : Type) (c : Client) (endpoint method : String)
    (body : Option String) (d : α) (http : Request → HttpResult α) (touchOk : Bool)
    (h : http (buildRequest c endpoint method body) = .success d) :
    makeApiRequest (some c) endpoint method body http touchOk =
      ((if touchOk then .ok d else .error genericApiErr),
       [buildRequest c endpoint method body]) := by
  cases touchOk <;> simp [makeApiRequest, h]

/-- C3 witness: the amended statement evaluated at a concrete call. -/
theorem c3_touch_result_witness :
    makeApiRequest (some exClient) "/jobs" "GET" none
        (fun _ => HttpResult.success (7 : Nat)) true =
      (.ok 7, [buildRequest exClient "/jobs" "GET" none]) := by
  have h := c3_touch_result Nat exClient "/jobs" "GET" none 7
      (fun _ => HttpResult.success (7 : Nat)) true rfl
  simpa using h

/-- C4 counterexample: the `jobs_list` button handler with no stored
credential does not emit the uniform onboarding prompt; the null
credential blows up inside `makeApiRequest`, whose catch rethrows the
generic payload, and the user sees `❌ Error: API request failed`.  (No
HTTP request is issued, which is the part of the claim that does
hold.) -/
theorem c4_actions_skip_onboarding_check :
    (jobsListAction none (fun _ => HttpResult.success exJobsResp) true).1 =
      [.toast "👁️ Loading jobs...",
       .edit { text := "❌ Error: API request failed", buttons := [] }] ∧
    UserMsg.send notOnboardedMsg ∉
      (jobsListAction none (fun _ => HttpResult.success exJobsResp) true).1 ∧
    (jobsListAction none (fun _ => HttpResult.success exJobsResp) true).2 = [] := by
  decide

/-- C4 amended: the typed-command (hears) handlers do short-circuit to
the uniform onboarding prompt on a missing credential, but the
button-press action handlers do not: they run into the proxy with the
absent credential and render the generic request-failed error instead.
In both cases no HTTP request is issued. -/
theorem c4_onboarding_check_split (http : Request → HttpResult (Paginated Job))
    (httpT : Request → HttpResult (Paginated Target))
    (httpC : Request → HttpResult (Paginated Content))
    (fmt : Nat → String) (touchOk : Bool) :
    jobsHears none = [.send notOnboardedMsg] ∧
    targetsHears none = [.send notOnboardedMsg] ∧
    contentAnalysisHears none fmt httpC touchOk = ([.send notOnboardedMsg], []) ∧
    jobsListAction none http touchOk =
      ([.toast "👁️ Loading jobs...",
        .edit { text := "❌ Error: API request failed", buttons := [] }], []) ∧
    targetsListAction none httpT touchOk =
      ([.toast "👁️ Loading targets...",
        .edit { text := "❌ Error: API request failed", buttons := [] }], []) := by
  exact ⟨rfl, rfl, rfl, rfl, rfl⟩

/-- C5 counterexample: the menu screens do render buttons carrying
`jobs_create` and `targets_create`, yet no registered trigger matches
either identifier, so the press falls through every middleware: no
handler runs and no message of any kind is produced (`bot.catch` fires
only for errors thrown inside a handler).  The event is silently
dropped, contradicting the claimed generic fallback. -/
theorem c5_unmatched_is_dropped :
    dispatch "jobs_create" = none ∧ dispatch "targets_create" = none := by
  decide

/-- C5 amended: the create buttons are rendered but their identifiers
match no registered pattern, so pressing them is silently dropped (no
handler, hence no reply); only errors raised inside handlers reach the
generic catch-all. -/
theorem c5_create_buttons_unrouted (c : Client) :
    jobsHears (some c) = [.sendScreen jobsMenuScreen] ∧
    ({ label := "➕ Create New Job", action := "jobs_create" } : Button) ∈
      jobsMenuScreen.buttons.flatten ∧
    targetsHears (some c) = [.sendScreen targetsMenuScreen] ∧
    ({ label := "➕ Create Target", action := "targets_create" } : Button) ∈
      targetsMenuScreen.buttons.flatten ∧
    dispatch "jobs_create" = none ∧
    dispatch "targets_create" = none := by
  exact ⟨rfl, by decide, rfl, by decide, by decide, by decide⟩

/-- With a present credential the proxy issues exactly one HTTP request,
whatever the exchange outcome. -/
theorem makeApiRequest_requests {α : Type} (c : Client) (endpoint method : String)
    (body : Option String) (http : Request → HttpResult α) (touchOk : Bool) :
    (makeApiRequest (some c) endpoint method body http touchOk).2 =
      [buildRequest c endpoint method body] := by
  cases h : http (buildRequest c endpoint method body) <;>
    cases touchOk <;> simp [makeApiRequest, h]

/-- The jobs-list handler, invoked with a present credential, always
issues exactly the one list request. -/
theorem jobsListAction_requests (c : Client)
    (http : Request → HttpResult (Paginated Job)) (touchOk : Bool) :
    (jobsListAction (some c) http touchOk).2 =
      [buildRequest c "/jobs?page=1&per_page=10" "GET" none] := by
  have hreq := makeApiRequest_requests c "/jobs?page=1&per_page=10" "GET" none http touchOk
  unfold jobsListAction
  rcases hres : makeApiRequest (some c) "/jobs?page=1&per_page=10" "GET" none http touchOk
    with ⟨res, reqs⟩
  rw [hres] at hreq
  cases res with
  | error e => simpa using hreq
  | ok d =>
    by_cases hlen : d.data.length = 0 <;> simp [hlen] <;> simpa using hreq

/-- C6 counterexample: in the job-deletion flow the rendered Cancel
button carries the action `jobs_list`; pressing it dispatches to the
jobs-list handler, which issues a backend request and re-renders the
list - not the claimed no-op acknowledgement with no backend call. -/
theorem c6_cancel_calls_backend :
    deleteJobAction "7" =
      [.edit { text := "⚠️ Are you sure you want to delete this job?\n\nThis action cannot be undone."
               buttons := [[{ label := "✅ Yes, Delete", action := "confirm_delete_job_7" },
                            { label := "❌ Cancel", action := "jobs_list" }]] }] ∧
    dispatch "jobs_list" = some (.jobsList, none) ∧
    (jobsListAction (some exClient) (fun _ => HttpResult.success exJobsResp) true).2 =
      [buildRequest exClient "/jobs?page=1&per_page=10" "GET" none] ∧
    (jobsListAction (some exClient) (fun _ => HttpResult.success exJobsResp) true).2 ≠ [] := by
  decide

/-- C6 amended: the confirm handler for a job issues exactly one DELETE
request and renders the terminal success screen; the account-deletion
flow's Cancel renders a bare acknowledgement with no backend call and
its Confirmed performs the one credential deletion; but the
job-deletion flow's Cancel button carries `jobs_list`, whose handler
always issues a backend list request. -/
theorem c6_confirmation_workflow (c : Client) (jobId : String) (store : Store)
    (id : String) (http : Request → HttpResult Unit)
    (h : http (buildRequest c ("/jobs/" ++ jobId) "DELETE" none) = .success ()) :
    confirmDeleteJobAction (some c) jobId http true =
      ([.toast "👁️ Deleting job...", .alert "✅ Job deleted!",
        .edit { text := "✅ Job deleted successfully!", buttons := [] },
        .send "Choose an option:"],
       [buildRequest c ("/jobs/" ++ jobId) "DELETE" none]) ∧
    (buildRequest c ("/jobs/" ++ jobId) "DELETE" none).method = "DELETE" ∧
    confirmDeleteAccountAction store id =
      (deleteOneClient store id,
       [.toast "👁️ Deleting account...",
        .edit { text := "✅ Account deleted successfully!\n\nUse /settoken to create a new account.",
                buttons := [] }]) ∧
    cancelDeleteAction =
      [.toast "Cancelled", .edit { text := "❌ Account deletion cancelled.", buttons := [] }] ∧
    deleteJobAction jobId =
      [.edit { text := "⚠️ Are you sure you want to delete this job?\n\nThis action cannot be undone."
               buttons := [[{ label := "✅ Yes, Delete", action := "confirm_delete_job_" ++ jobId },
                            { label := "❌ Cancel", action := "jobs_list" }]] }] ∧
    (∀ (httpJ : Request → HttpResult (Paginated Job)) (touchOk : Bool),
      (jobsListAction (some c) httpJ touchOk).2 =
        [buildRequest c "/jobs?page=1&per_page=10" "GET" none]) := by
  refine ⟨?_, rfl, rfl, rfl, rfl, fun httpJ touchOk => jobsListAction_requests c httpJ touchOk⟩
  simp [confirmDeleteJobAction, makeApiRequest, h]

/-- C6 witness: the amended statement evaluated at a concrete job. -/
theorem c6_confirmation_workflow_witness :
    confirmDeleteJobAction (some exClient) "7" (fun _ => HttpResult.success ()) true =
      ([.toast "👁️ Deleting job...", .alert "✅ Job deleted!",
        .edit { text := "✅ Job deleted successfully!", buttons := [] },
        .send "Choose an option:"],
       [buildRequest exClient "/jobs/7" "DELETE" none]) := by
  have h := c6_confirmation_workflow exClient "7" (fun _ => none) "42"
      (fun _ => HttpResult.success ()) rfl
  exact h.1

/-- C7 (code bug): no request the bot ever builds - neither a proxied
call nor the settoken verification call - carries a timeout bound; the
axios configs omit the `timeout` option, so axios waits without bound
and no expiry failure can be produced. -/
theorem c7_no_timeout :
    (∀ (c : Client) (endpoint method : String) (body : Option String),
      (buildRequest c endpoint method body).timeout = none) ∧
    (∀ (token : String) (envBase : Option String),
      (verifyRequest token envBase).timeout = none) :=
  ⟨fun _ _ _ _ => rfl, fun _ _ => rfl⟩

/-- C8: when the verification call fails, `settoken` leaves the store
untouched, so an identity with no credential still has none afterwards;
the verification step itself persists nothing. -/
theorem c8_onboarding_no_persist (store : Store) (id token : String)
    (rest : List String) (envBase : Option String) (verify : Request → Bool) (now : Nat)
    (habs : getClient store id = none)
    (hv : verify (verifyRequest token envBase) = false) :
    (settokenCommand store id (token :: rest) envBase verify now).1 = store ∧
    getClient (settokenCommand store id (token :: rest) envBase verify now).1 id = none := by
  constructor
  · simp [settokenCommand, hv]
  · simp [settokenCommand, hv]
    exact habs

/-- C8 witness: a failing verification on an empty store leaves the
identity absent. -/
theorem c8_onboarding_no_persist_witness :
    getClient (settokenCommand (fun _ => none) "42" ["tok"] none (fun _ => false) 0).1 "42" =
      none := by
  have h := c8_onboarding_no_persist (fun _ => none) "42" "tok" [] none
      (fun _ => false) 0 rfl rfl
  exact h.2

/-- C9 counterexample: the populated targets screen shows the page
position but not the total count: with a backend total of 7 the
rendered text contains neither the word Total nor the digit 7. -/
theorem c9_targets_total_missing :
    (targetsListAction (some exClient) (fun _ => HttpResult.success exTargetsResp) true).1 =
      [.toast "👁️ Loading targets...",
       .edit { text := targetsListText { page := 1, pages := 1, total := 7 },
               buttons := targetsButtons exTargetsResp.data }] ∧
    hasInfix ("Total").data (targetsListText { page := 1, pages := 1, total := 7 }).data = false ∧
    hasInfix (totalMarker 7).data (targetsListText { page := 1, pages := 1, total := 7 }).data = false ∧
    hasInfix ("7").data (targetsListText { page := 1, pages := 1, total := 7 }).data = false := by
  decide

/-- C9 amended: all four list views short-circuit an empty result set to
their fixed no-resources screen, and every populated view shows the page
position; but the total count is shown only by the jobs and leads
views (the targets and content-analysis views omit it, and the
content-analysis header prints the literal requested page 1). -/
theorem c9_list_rendering (c : Client) (fmt : Nat → String)
    (dj : Paginated Job) (dt : Paginated Target) (dl : Paginated Lead) (dc : Paginated Content)
    (ej : Paginated Job) (et : Paginated Target) (el : Paginated Lead) (ec : Paginated Content)
    (hj : dj.data ≠ []) (ht : dt.data ≠ []) (hl : dl.data ≠ []) (hc : dc.data ≠ [])
    (hej : ej.data = []) (het : et.data = []) (hel : el.data = []) (hec : ec.data = []) :
    (jobsListAction (some c) (fun _ => .success ej) true).1 =
      [.toast "👁️ Loading jobs...",
       .edit { text := "📭 No jobs found.\n\nCreate your first job!", buttons := [] }] ∧
    (targetsListAction (some c) (fun _ => .success et) true).1 =
      [.toast "👁️ Loading targets...", .edit { text := "📭 No targets found.", buttons := [] }] ∧
    (leadsListAction (some c) "all" (fun _ => .success el) true).1 =
      [.toast "👁️ Loading leads...", .edit { text := "📭 No leads found.", buttons := [] }] ∧
    (contentAnalysisHears (some c) fmt (fun _ => .success ec) true).1 =
      [.send "👁️ Loading content analysis...",
       .edit { text := "📭 No content analysis data found.", buttons := [] }] ∧
    (jobsListAction (some c) (fun _ => .success dj) true).1 =
      [.toast "👁️ Loading jobs...",
       .edit { text := jobsListText dj.pagination, buttons := jobsButtons dj.data }] ∧
    hasInfix (pageMarker dj.pagination.page dj.pagination.pages).data
      (jobsListText dj.pagination).data = true ∧
    hasInfix (totalMarker dj.pagination.total).data (jobsListText dj.pagination).data = true ∧
    (targetsListAction (some c) (fun _ => .success dt) true).1 =
      [.toast "👁️ Loading targets...",
       .edit { text := targetsListText dt.pagination, buttons := targetsButtons dt.data }] ∧
    hasInfix (pageMarker dt.pagination.page dt.pagination.pages).data
      (targetsListText dt.pagination).data = true ∧
    (leadsListAction (some c) "all" (fun _ => .success dl) true).1 =
      [.toast "👁️ Loading leads...",
       .edit { text := leadsListText dl.pagination, buttons := leadsButtons dl.data }] ∧
    hasInfix (pageMarker dl.pagination.page dl.pagination.pages).data
      (leadsListText dl.pagination).data = true ∧
    hasInfix (totalMarker dl.pagination.total).data (leadsListText dl.pagination).data = true ∧
    (contentAnalysisHears (some c) fmt (fun _ => .success dc) true).1 =
      [.send "👁️ Loading content analysis...",
       .edit { text := contentAnalysisText fmt dc.pagination dc.data, buttons := [] }] ∧
    hasInfix ("(Page 1/" ++ toString dc.pagination.pages ++ ")").data
      (contentAnalysisText fmt dc.pagination dc.data).data = true := by
  refine ⟨?_, ?_, ?_, ?_, ?_, ?_, ?_, ?_, ?_, ?_, ?_, ?_, ?_, ?_⟩
  · simp [jobsListAction, makeApiRequest, hej]
  · simp [targetsListAction, makeApiRequest, het]
  · simp [leadsListAction, makeApiRequest, hel]
  · simp [contentAnalysisHears, makeApiRequest, hec]
  · simp [jobsListAction, makeApiRequest, List.length_eq_zero, hj]
  · refine hasInfix_of_eq_append ("📊 Jobs List ").data
      (("\n📦 " ++ totalMarker dj.pagination.total ++ "\n\nSelect a job to view details:").data) ?_
    simp [jobsListText, strDataAppend]
  · refine hasInfix_of_eq_append
      (("📊 Jobs List " ++ pageMarker dj.pagination.page dj.pagination.pages ++ "\n📦 ").data)
      (("\n\nSelect a job to view details:").data) ?_
    simp [jobsListText, strDataAppend]
  · simp [targetsListAction, makeApiRequest, List.length_eq_zero, ht]
  · refine hasInfix_of_eq_append ("🎯 Targets ").data (("\n\nSelect a target:").data) ?_
    simp [targetsListText, strDataAppend]
  · simp [leadsListAction, makeApiRequest, List.length_eq_zero, hl]
  · refine hasInfix_of_eq_append ("👥 Leads ").data
      (("\n" ++ totalMarker dl.pagination.total ++ "\n\nSelect a lead:").data) ?_
    simp [leadsListText, strDataAppend]
  · refine hasInfix_of_eq_append
      (("👥 Leads " ++ pageMarker dl.pagination.page dl.pagination.pages ++ "\n").data)
      (("\n\nSelect a lead:").data) ?_
    simp [leadsListText, strDataAppend]
  · simp [contentAnalysisHears, makeApiRequest, List.length_eq_zero, hc]
  · refine hasInfix_of_eq_append ("📈 Content Analysis ").data
      (("\n\n" ++ String.join (dc.data.enum.map (contentLine fmt))).data) ?_
    simp [contentAnalysisText, strDataAppend]

/-- C9 witness: the amended statement evaluated on a one-job page. -/
theorem c9_list_rendering_witness :
    (jobsListAction (some exClient) (fun _ => HttpResult.success exJobsResp) true).1 =
      [.toast "👁️ Loading jobs...",
       .edit { text := jobsListText exJobsResp.pagination,
               buttons := jobsButtons exJobsResp.data }] ∧
    hasInfix (totalMarker exJobsResp.pagination.total).data
      (jobsListText exJobsResp.pagination).data = true := by
  have h := c9_list_rendering exClient (fun n => toString n)
      exJobsResp exTargetsResp exLeadsResp exContentResp
      { data := [], pagination := { page := 1, pages := 0, total := 0 } }
      { data := [], pagination := { page := 1, pages := 0, total := 0 } }
      { data := [], pagination := { page := 1, pages := 0, total := 0 } }
      { data := [], pagination := { page := 1, pages := 0, total := 0 } }
      (by decide) (by decide) (by decide) (by decide) rfl rfl rfl rfl
  exact ⟨h.2.2.2.2.1, h.2.2.2.2.2.2.1⟩

/-- C10: `settoken` builds its verification call from the
process-configured default base url and the submitted token alone, and
on success stores that default as the credential's `baseUrl` - a custom
url set beforehand through `seturl` is recorded by `seturl` but then
overwritten by the later `settoken`, and it never enters the
verification request. -/
theorem c10_settoken_uses_default (store : Store) (id custom token : String)
    (rest : List String) (envBase : Option String) (verify : Request → Bool) (now : Nat)
    (c : Client) (hc : getClient store id = some c)
    (hv : verify (verifyRequest token envBase) = true) :
    (verifyRequest token envBase).url = defaultBaseUrl envBase ++ "/stats" ∧
    getClient ((seturlCommand store id [custom]).1) id = some { c with baseUrl := custom } ∧
    (settokenCommand ((seturlCommand store id [custom]).1) id (token :: rest)
        envBase verify now).2.2 = [verifyRequest token envBase] ∧
    ∃ cf : Client,
      getClient (settokenCommand ((seturlCommand store id [custom]).1) id (token :: rest)
          envBase verify now).1 id = some cf ∧
      cf.baseUrl = defaultBaseUrl envBase ∧ cf.apiToken = token := by
  refine ⟨rfl, ?_, ?_, ?_⟩
  · simp only [getClient] at hc
    simp [seturlCommand, getClient, hc, updateBaseUrl]
  · simp [settokenCommand, hv]
  · simp [settokenCommand, hv, getClient, upsertClient]

/-- C10 witness: a concrete seturl-then-settoken run ends with the
default base url stored. -/
theorem c10_settoken_uses_default_witness :
    ∃ cf : Client,
      getClient (settokenCommand ((seturlCommand exStore "42" ["http://custom/api"]).1) "42"
          ["tok2"] none (fun _ => true) 5).1 "42" = some cf ∧
      cf.baseUrl = defaultBaseUrl none ∧ cf.apiToken = "tok2" := by
  have h := c10_settoken_uses_default exStore "42" "http://custom/api" "tok2" [] none
      (fun _ => true) 5 exClient (by decide) rfl
  exact h.2.2.2

end Leadie
